import Mathlib

/-
  Verification development for the qie-x402-facilitator repository.

  Shallow embedding of the authorization verification pipeline
  (src/services/verifyService.ts : verifyPayment), the signature splitter
  and settle handler (src/handlers/settle.ts : parseSignature, handleSettle),
  the verify handler (src/handlers/verify.ts : handleVerify), the ledger
  write wrapper (src/services/qieService.ts : executeTransferWithAuthorization)
  and the two gas strategies (src/index.ts : FIXED_GAS_LIMIT / gasInjectedClient,
  and src/client.ts : extendedWriteContract).

  Conventions of the embedding:
  * JavaScript numbers that hold integer values are modelled as Lean Int.
    parseInt returns a JS number that can be NaN, modelled as Option Int
    (none = NaN); JS comparisons against NaN are false, see jsLtNum / jsGeNum.
    parseInt's float rounding for magnitudes at or above 2^53 is not modelled;
    all values relevant here (unix timestamps) are far below that bound.
  * JavaScript bigint values are modelled as Int; BigInt(string) conversion
    (ECMAScript StringToBigInt) is modelled by jsBigIntE, which returns
    .error with the thrown message on strings that are not numeric literals.
    Only ASCII whitespace characters are modelled in string trimming.
  * Strings are Lean Strings; String.prototype.toLowerCase is modelled on
    ASCII (all strings compared case-insensitively here are hex addresses).
  * Remote calls (typed-data signer recovery, the two ledger reads, the
    ledger write) are oracles supplied in an Env record; each returns
    Except String so that a transport fault / throw can be injected.
  * Which external operations a code path performs is recorded as a trace
    of Action values, emitted exactly where the source performs the call.
  * The `config` module of the repository is imported but not part of the
    source tree; nothing here depends on its values, so functions are
    parameterised over a Config record holding its fields.
-/

namespace QieX402

/-! ### JavaScript string and number primitives -/

/-- ASCII whitespace recognised by the JS trimming model (space, tab, LF,
VT, FF, CR), identified by code point. -/
def isWsChar (c : Char) : Bool :=
  c.toNat = 32 || c.toNat = 9 || c.toNat = 10 || c.toNat = 11 ||
    c.toNat = 12 || c.toNat = 13

/-- Drop leading whitespace characters. -/
def trimLeftWs : List Char → List Char
  | [] => []
  | c :: rest => if isWsChar c then trimLeftWs rest else c :: rest

/-- Drop leading and trailing whitespace characters. -/
def trimWs (l : List Char) : List Char :=
  ((trimLeftWs ((trimLeftWs l).reverse)).reverse)

/-- Decimal digit test. -/
def isDecChar (c : Char) : Bool := 48 ≤ c.toNat && c.toNat ≤ 57

/-- Value of a decimal digit. -/
def decCharVal (c : Char) : Nat := c.toNat - 48

/-- Value of a hexadecimal digit (upper or lower case), none otherwise. -/
def hexDigitVal (c : Char) : Option Nat :=
  if isDecChar c then some (c.toNat - 48)
  else if 97 ≤ c.toNat && c.toNat ≤ 102 then some (c.toNat - 87)
  else if 65 ≤ c.toNat && c.toNat ≤ 70 then some (c.toNat - 55)
  else none

/-- Binary digit test. -/
def isBinChar (c : Char) : Bool := c.toNat = 48 || c.toNat = 49

/-- Octal digit test. -/
def isOctChar (c : Char) : Bool := 48 ≤ c.toNat && c.toNat ≤ 55

/-- Accumulate the longest prefix of decimal digits (parseInt stops at the
first non-digit and ignores the rest). -/
def leadDecLoop : List Char → Nat → Nat
  | [], acc => acc
  | c :: rest, acc =>
    if isDecChar c then leadDecLoop rest (10 * acc + decCharVal c) else acc

/-- Accumulate the longest prefix of hexadecimal digits. -/
def leadHexLoop : List Char → Nat → Nat
  | [], acc => acc
  | c :: rest, acc =>
    match hexDigitVal c with
    | some d => leadHexLoop rest (16 * acc + d)
    | none => acc

/-- Accumulate binary digits (for StringToBigInt's 0b literals). -/
def binValLoop : List Char → Nat → Nat
  | [], acc => acc
  | c :: rest, acc => binValLoop rest (2 * acc + decCharVal c)

/-- Accumulate octal digits (for StringToBigInt's 0o literals). -/
def octValLoop : List Char → Nat → Nat
  | [], acc => acc
  | c :: rest, acc => octValLoop rest (8 * acc + decCharVal c)

/-- Read an optional leading sign (code points 43 / 45), returning the
sign and the rest. -/
def readSign : List Char → Int × List Char
  | [] => (1, [])
  | c :: rest =>
    if c.toNat = 43 then (1, rest)
    else if c.toNat = 45 then (-1, rest)
    else (1, c :: rest)

/-- Does the character list start with a 0x / 0X prefix? -/
def startsHex0x : List Char → Bool
  | c0 :: c1 :: _ => c0.toNat = 48 && (c1.toNat = 120 || c1.toNat = 88)
  | _ => false

/-- Does the character list start with a 0b / 0B prefix? -/
def startsBin0b : List Char → Bool
  | c0 :: c1 :: _ => c0.toNat = 48 && (c1.toNat = 98 || c1.toNat = 66)
  | _ => false

/-- Does the character list start with a 0o / 0O prefix? -/
def startsOct0o : List Char → Bool
  | c0 :: c1 :: _ => c0.toNat = 48 && (c1.toNat = 111 || c1.toNat = 79)
  | _ => false

/-- JS `parseInt(s)` with the radix argument omitted: trim leading
whitespace, read an optional sign, auto-detect a 0x prefix (radix 16),
otherwise parse the longest prefix of decimal digits; NaN (`none`) when no
digit is found. -/
def jsParseInt (s : String) : Option Int :=
  let cs := trimLeftWs s.data
  let sc := readSign cs
  if startsHex0x sc.2 then
    let body := sc.2.drop 2
    match body with
    | [] => none
    | c :: _ =>
      match hexDigitVal c with
      | none => none
      | some _ => some (sc.1 * (leadHexLoop body 0 : Int))
  else
    match sc.2 with
    | [] => none
    | c :: _ =>
      if isDecChar c then some (sc.1 * (leadDecLoop sc.2 0 : Int)) else none

/-- JS `parseInt(s, 16)`: trim leading whitespace, read an optional sign,
strip an optional 0x prefix, parse the longest prefix of hex digits; NaN
(`none`) when no digit is found. -/
def jsParseIntHex (s : String) : Option Int :=
  let cs := trimLeftWs s.data
  let sc := readSign cs
  let body := if startsHex0x sc.2 then sc.2.drop 2 else sc.2
  match body with
  | [] => none
  | c :: _ =>
    match hexDigitVal c with
    | none => none
    | some _ => some (sc.1 * (leadHexLoop body 0 : Int))

/-- The message of the SyntaxError thrown by `BigInt(s)` on a malformed
numeric string. -/
def bigIntErr (s : String) : String := "Cannot convert " ++ s ++ " to a BigInt"

/-- ECMAScript StringToBigInt, as invoked by `BigInt(s)`: trim whitespace;
empty means 0n; a 0x/0b/0o literal (no sign) or a signed run of decimal
digits, covering the whole string; everything else throws. -/
def jsBigIntE (s : String) : Except String Int :=
  let cs := trimWs s.data
  match cs with
  | [] => .ok 0
  | _ =>
    if startsHex0x cs then
      let body := cs.drop 2
      if !body.isEmpty && body.all (fun c => (hexDigitVal c).isSome) then
        .ok (leadHexLoop body 0)
      else .error (bigIntErr s)
    else if startsBin0b cs then
      let body := cs.drop 2
      if !body.isEmpty && body.all isBinChar then
        .ok (binValLoop body 0)
      else .error (bigIntErr s)
    else if startsOct0o cs then
      let body := cs.drop 2
      if !body.isEmpty && body.all isOctChar then
        .ok (octValLoop body 0)
      else .error (bigIntErr s)
    else
      let sc := readSign cs
      if !sc.2.isEmpty && sc.2.all isDecChar then
        .ok (sc.1 * (leadDecLoop sc.2 0 : Int))
      else .error (bigIntErr s)

/-- ASCII lower-casing of one character. -/
def toLowerChar (c : Char) : Char :=
  if 65 ≤ c.toNat && c.toNat ≤ 90 then Char.ofNat (c.toNat + 32) else c

/-- JS `s.toLowerCase()` on ASCII strings. -/
def jsToLowerCase (s : String) : String := String.mk (s.data.map toLowerChar)

/-- JS `s.slice(a, b)` for non-negative indices. -/
def jsSlice (s : String) (a b : Nat) : String :=
  String.mk ((s.data.drop a).take (b - a))

/-- JS `a < b` where `b` may be NaN (`none`): comparisons with NaN are
false. -/
def jsLtNum (a : Int) (b : Option Int) : Bool :=
  match b with
  | none => false
  | some x => decide (a < x)

/-- JS `a >= b` where `b` may be NaN (`none`): comparisons with NaN are
false. -/
def jsGeNum (a : Int) (b : Option Int) : Bool :=
  match b with
  | none => false
  | some x => decide (x ≤ a)

/-- Rendering of a possibly-NaN JS number in a template literal. -/
def toStringNum (v : Option Int) : String :=
  match v with
  | none => "NaN"
  | some n => toString n

/-! ### Data model (src/types.ts) -/

/-- EIP-3009 Authorization structure (authorizationSchema). The numeric
fields are strings on the wire; the schema validates only that they are
strings. -/
structure Authorization where
  «from» : String
  «to» : String
  value : String
  validAfter : String
  validBefore : String
  nonce : String
deriving DecidableEq, Repr

/-- Payment requirements descriptor (paymentRequirementsSchema). -/
structure PaymentRequirements where
  scheme : String
  network : String
  asset : String
  amount : String
  payTo : String
  maxTimeoutSeconds : Int
deriving DecidableEq, Repr

/-- Exact scheme payload (exactPayloadSchema). -/
structure ExactPayload where
  signature : String
  authorization : Authorization
deriving DecidableEq, Repr

/-- Full payment payload (paymentPayloadSchema). -/
structure PaymentPayload where
  x402Version : Int
  scheme : String
  network : String
  payload : ExactPayload
deriving DecidableEq, Repr

/-- Body of a verify or settle request after schema parsing
(verifyRequestSchema / settleRequestSchema share this shape). -/
structure FacilitatorRequest where
  payload : PaymentPayload
  requirements : PaymentRequirements
deriving DecidableEq, Repr

/-- The VerificationResult interface of verifyService.ts. -/
structure VerificationResult where
  isValid : Bool
  payer : Option String
  invalidReason : Option String
deriving DecidableEq, Repr

/-- `{ isValid: false, invalidReason: reason }`. -/
def invalidResult (reason : String) : VerificationResult :=
  { isValid := false, payer := none, invalidReason := some reason }

/-- `{ isValid: true, payer: payer }`. -/
def validResult (payer : String) : VerificationResult :=
  { isValid := true, payer := some payer, invalidReason := none }

/-- VerifyResponse union of src/types.ts. -/
inductive VerifyResponseBody where
  | valid (payer : String)
  | invalid (invalidReason : String)
deriving DecidableEq, Repr

/-- SettleResponse union of src/types.ts. -/
inductive SettleResponseBody where
  | settled (transaction network payer : String)
  | failed (errorReason : String)
deriving DecidableEq, Repr

/-! ### External collaborators -/

/-- EIP-712 domain passed to recoverTypedDataAddress. -/
structure TypedDataDomain where
  name : String
  version : String
  chainId : Int
  verifyingContract : String
deriving DecidableEq, Repr

/-- The TransferWithAuthorization message passed to
recoverTypedDataAddress (its uint256 fields are bigints by then). -/
structure TypedDataMessage where
  «from» : String
  «to» : String
  value : Int
  validAfter : Int
  validBefore : Int
  nonce : String
deriving DecidableEq, Repr

/-- Everything recoverTypedDataAddress reads. -/
structure TypedDataInput where
  domain : TypedDataDomain
  message : TypedDataMessage
  signature : String
deriving DecidableEq, Repr

/-- Fields of the (out-of-tree) config module that the embedded code
reads. -/
structure Config where
  tokenName : String
  tokenVersion : String
  qusdContractAddress : String
  networkId : String
  scheme : String
deriving DecidableEq, Repr

/-- Chain id of the qieChain definition in src/config.ts. -/
def qieChainId : Int := 1990

/-- External operations a request handler may perform. -/
inductive Action where
  | recoverA
  | nonceReadA
  | balanceReadA
  | submitA
deriving DecidableEq, Repr

/-- Oracles for the CPU-side crypto call and the remote ledger, plus the
wall clock. Each fallible call returns Except so a thrown error or
transport fault can be injected. -/
structure Env where
  recoverTypedDataAddress : TypedDataInput → Except String String
  now : Int
  isNonceUsed : String → String → Except String Bool
  getBalance : String → Except String Int
  walletConfigured : Bool

/-! ### Reason strings produced by the pipeline -/

/-- Reason of check 2 of verifyPayment. -/
def signerMismatchReason (recovered expected : String) : String :=
  "Signer mismatch: recovered " ++ recovered ++ ", expected " ++ expected

/-- Reason of the lower time-bound failure of verifyPayment. -/
def notYetValidReason (validAfter : Option Int) (now : Int) : String :=
  "Authorization not yet valid: valid after " ++ toStringNum validAfter ++
    ", current time " ++ toString now

/-- Reason of the upper time-bound failure of verifyPayment. -/
def expiredReason (validBefore : Option Int) (now : Int) : String :=
  "Authorization has expired: valid before " ++ toStringNum validBefore ++
    ", current time " ++ toString now

/-- Reason of the nonce-state failure of verifyPayment. -/
def nonceUsedReason : String := "Nonce has already been used"

/-- Reason of the balance failure of verifyPayment. -/
def insufficientBalanceReason (balance required : Int) : String :=
  "Insufficient balance: has " ++ toString balance ++ ", needs " ++
    toString required

/-- Reason of the authorization-amount failure of verifyPayment. -/
def authAmountReason (authAmount required : Int) : String :=
  "Authorization amount " ++ toString authAmount ++
    " is less than required " ++ toString required

/-- Reason of the recipient failure of verifyPayment. -/
def recipientMismatchReason («to» payTo : String) : String :=
  "Recipient mismatch: authorization to " ++ «to» ++ ", required " ++ payTo

/-- Reason of the asset failure of verifyPayment. -/
def assetMismatchReason (asset contract : String) : String :=
  "Asset mismatch: requirement specifies " ++ asset ++
    ", facilitator manages " ++ contract

/-- Reason wrapping produced by verifyPayment's catch block. -/
def verificationErrorReason (cause : String) : String :=
  "Verification error: " ++ cause

/-- Reason produced by the network check of handleVerify / handleSettle. -/
def networkMismatchReason (network expected : String) : String :=
  "Unsupported network: " ++ network ++ ". Expected: " ++ expected

/-- Reason produced by the scheme check of handleVerify / handleSettle. -/
def schemeMismatchReason (scheme expected : String) : String :=
  "Unsupported scheme: " ++ scheme ++ ". Expected: " ++ expected

/-- Reason wrapping produced by handleSettle's catch block. -/
def settlementFailedReason (cause : String) : String :=
  "Settlement failed: " ++ cause

/-! ### verifyPayment (src/services/verifyService.ts) -/

/-- The EIP-712 domain verifyPayment builds from config and qieChain. -/
def buildDomain (config : Config) : TypedDataDomain :=
  { name := config.tokenName
  , version := config.tokenVersion
  , chainId := qieChainId
  , verifyingContract := config.qusdContractAddress }

/-- The full argument of the recoverTypedDataAddress call in verifyPayment
(its uint256 message fields already converted by BigInt). -/
def buildTypedData (config : Config) (authorization : Authorization)
    (value validAfter validBefore : Int) (signature : String) :
    TypedDataInput :=
  { domain := buildDomain config
  , message :=
      { «from» := authorization.«from»
      , «to» := authorization.«to»
      , value := value
      , validAfter := validAfter
      , validBefore := validBefore
      , nonce := authorization.nonce }
  , signature := signature }

/-- Body of verifyPayment's try block. `.error e` is a throw that the
enclosing catch will intercept: a failed BigInt conversion while building
the typed-data message, a fault from signer recovery, or a fault from a
ledger read. The second component is the trace of external calls actually
performed on that path. -/
def verifyPaymentRaw (env : Env) (config : Config)
    (authorization : Authorization) (signature : String)
    (requirements : PaymentRequirements) :
    Except String VerificationResult × List Action :=
  match jsBigIntE authorization.value with
  | .error e => (.error e, [])
  | .ok msgValue =>
  match jsBigIntE authorization.validAfter with
  | .error e => (.error e, [])
  | .ok msgValidAfter =>
  match jsBigIntE authorization.validBefore with
  | .error e => (.error e, [])
  | .ok msgValidBefore =>
  match env.recoverTypedDataAddress
      (buildTypedData config authorization msgValue msgValidAfter
        msgValidBefore signature) with
  | .error e => (.error e, [Action.recoverA])
  | .ok recoveredAddress =>
  if jsToLowerCase recoveredAddress ≠ jsToLowerCase authorization.«from» then
    (.ok (invalidResult
        (signerMismatchReason recoveredAddress authorization.«from»)),
      [Action.recoverA])
  else
  let now := env.now
  let validAfter := jsParseInt authorization.validAfter
  let validBefore := jsParseInt authorization.validBefore
  if jsLtNum now validAfter then
    (.ok (invalidResult (notYetValidReason validAfter now)), [Action.recoverA])
  else if jsGeNum now validBefore then
    (.ok (invalidResult (expiredReason validBefore now)), [Action.recoverA])
  else
  match env.isNonceUsed authorization.«from» authorization.nonce with
  | .error e => (.error e, [Action.recoverA, Action.nonceReadA])
  | .ok nonceUsed =>
  if nonceUsed then
    (.ok (invalidResult nonceUsedReason), [Action.recoverA, Action.nonceReadA])
  else
  match env.getBalance authorization.«from» with
  | .error e =>
    (.error e, [Action.recoverA, Action.nonceReadA, Action.balanceReadA])
  | .ok balance =>
  match jsBigIntE requirements.amount with
  | .error e =>
    (.error e, [Action.recoverA, Action.nonceReadA, Action.balanceReadA])
  | .ok requiredAmount =>
  if balance < requiredAmount then
    (.ok (invalidResult (insufficientBalanceReason balance requiredAmount)),
      [Action.recoverA, Action.nonceReadA, Action.balanceReadA])
  else
  match jsBigIntE authorization.value with
  | .error e =>
    (.error e, [Action.recoverA, Action.nonceReadA, Action.balanceReadA])
  | .ok authAmount =>
  if authAmount < requiredAmount then
    (.ok (invalidResult (authAmountReason authAmount requiredAmount)),
      [Action.recoverA, Action.nonceReadA, Action.balanceReadA])
  else if jsToLowerCase authorization.«to» ≠
      jsToLowerCase requirements.payTo then
    (.ok (invalidResult
        (recipientMismatchReason authorization.«to» requirements.payTo)),
      [Action.recoverA, Action.nonceReadA, Action.balanceReadA])
  else if jsToLowerCase requirements.asset ≠
      jsToLowerCase config.qusdContractAddress then
    (.ok (invalidResult
        (assetMismatchReason requirements.asset config.qusdContractAddress)),
      [Action.recoverA, Action.nonceReadA, Action.balanceReadA])
  else
    (.ok (validResult recoveredAddress),
      [Action.recoverA, Action.nonceReadA, Action.balanceReadA])

/-- verifyPayment: the try body with its catch block, which converts any
thrown error into `{isValid:false, invalidReason:"Verification error: …"}`. -/
def verifyPayment (env : Env) (config : Config)
    (authorization : Authorization) (signature : String)
    (requirements : PaymentRequirements) : VerificationResult × List Action :=
  match verifyPaymentRaw env config authorization signature requirements with
  | (.ok r, tr) => (r, tr)
  | (.error e, tr) => (invalidResult (verificationErrorReason e), tr)

/-- The VerificationResult returned by verifyPayment. -/
def verifyPaymentResult (env : Env) (config : Config)
    (authorization : Authorization) (signature : String)
    (requirements : PaymentRequirements) : VerificationResult :=
  (verifyPayment env config authorization signature requirements).1

/-- The trace of external calls verifyPayment performs. -/
def verifyPaymentTrace (env : Env) (config : Config)
    (authorization : Authorization) (signature : String)
    (requirements : PaymentRequirements) : List Action :=
  (verifyPayment env config authorization signature requirements).2

/-! ### parseSignature (src/handlers/settle.ts) -/

/-- The `{v, r, s}` record parseSignature returns. `v` is a JS number and
can be NaN (`none`) when the blob holds no 65th byte. -/
structure SignatureParts where
  v : Option Int
  r : String
  s : String
deriving DecidableEq, Repr

/-- parseSignature: drop the 0x prefix, slice r (chars 0–64), s (64–128)
and v (128–130, parsed base 16), then normalize v by adding 27 when
v < 27. No length validation is performed anywhere. -/
def parseSignature (signature : String) : SignatureParts :=
  let sig := jsSlice signature 2 signature.data.length
  let r := "0x" ++ jsSlice sig 0 64
  let s := "0x" ++ jsSlice sig 64 128
  let v0 := jsParseIntHex (jsSlice sig 128 130)
  let v := match v0 with
    | none => none
    | some n => if n < 27 then some (n + 27) else some n
  { v := v, r := r, s := s }

/-! ### Ledger write (src/services/qieService.ts) and gas strategies -/

/-- The argument record viem's writeContract receives. The static abi
constant carries no run-time information and is omitted; callArgs holds
the call's arguments in order (numeric ones rendered in decimal). -/
structure WriteContractArgs where
  address : String
  functionName : String
  callArgs : List String
  gas : Option Int
deriving DecidableEq, Repr

/-- The writeContract argument built by executeTransferWithAuthorization:
note that it carries no `gas` field, so viem falls back to dynamic
eth_estimateGas estimation for this submission. -/
def transferWithAuthorizationCall (config : Config) («from» «to» : String)
    (value validAfter validBefore : Int) (nonce : String) (v : Option Int)
    (r s : String) : WriteContractArgs :=
  { address := config.qusdContractAddress
  , functionName := "transferWithAuthorization"
  , callArgs := [«from», «to», toString value, toString validAfter,
      toString validBefore, nonce, toStringNum v, r, s]
  , gas := none }

/-- executeTransferWithAuthorization: fails when the wallet client is not
configured, otherwise submits the transferWithAuthorization call through
the supplied writeContract capability. -/
def executeTransferWithAuthorization
    (submit : WriteContractArgs → Except String String) (env : Env)
    (config : Config) («from» «to» : String)
    (value validAfter validBefore : Int) (nonce : String) (v : Option Int)
    (r s : String) : Except String String :=
  if env.walletConfigured = false then
    .error "Wallet client not configured - missing FACILITATOR_PRIVATE_KEY"
  else
    submit (transferWithAuthorizationCall config «from» «to» value validAfter
      validBefore nonce v r s)

/-- The fixed gas ceiling of src/index.ts, named FIXED_GAS_LIMIT there:
required because QIE's eth_estimateGas returns insufficient gas (24,000). -/
def FIXED_GAS_LIMIT : Int := 1000000

/-- The writeContract override of src/index.ts's gasInjectedClient:
`client.writeContract({ ...args, gas: FIXED_GAS_LIMIT })` — the args that
reach viem, with the fixed ceiling injected and no estimation call. -/
def gasInjectedWriteContractArgs (args : WriteContractArgs) :
    WriteContractArgs :=
  { args with gas := some FIXED_GAS_LIMIT }

/-- The extendedWriteContract wrapper of src/client.ts (the alternate
integration): it first requests eth_estimateGas from the RPC, stores the
estimate in args.gas, and only then calls writeContract; an estimation
failure is rethrown. The result is the args that reach viem. -/
def extendedWriteContract (estimateGas : Except String Int)
    (args : WriteContractArgs) : Except String WriteContractArgs :=
  match estimateGas with
  | .error e => .error e
  | .ok gasEstimate => .ok { args with gas := some gasEstimate }

/-! ### Request handlers (src/handlers/verify.ts, src/handlers/settle.ts)

Both handlers are modelled from the point where the request body has
passed schema parsing (JSON transport and the zod schemas are HTTP
plumbing outside the verified core); the returned value is the JSON body
of the response. -/

/-- handleVerify: network check, then scheme check, then verifyPayment. -/
def handleVerify (env : Env) (config : Config) (req : FacilitatorRequest) :
    VerifyResponseBody × List Action :=
  if req.payload.network ≠ config.networkId then
    (.invalid (networkMismatchReason req.payload.network config.networkId),
      [])
  else if req.payload.scheme ≠ config.scheme then
    (.invalid (schemeMismatchReason req.payload.scheme config.scheme), [])
  else
    let rt := verifyPayment env config req.payload.payload.authorization
      req.payload.payload.signature req.requirements
    (if rt.1.isValid then .valid (rt.1.payer.getD "")
     else .invalid (rt.1.invalidReason.getD ""), rt.2)

/-- handleSettle: network check, scheme check, re-verification through
verifyPayment, then signature split and on-chain submission; any error
thrown by the submission (or by the BigInt conversions in its argument
list) is caught and wrapped as "Settlement failed: …". `Option.getD ""`
models the TS non-null assertions `invalidReason!` / `payer!`. -/
def handleSettle (env : Env)
    (submit : WriteContractArgs → Except String String) (config : Config)
    (req : FacilitatorRequest) : SettleResponseBody × List Action :=
  if req.payload.network ≠ config.networkId then
    (.failed (networkMismatchReason req.payload.network config.networkId),
      [])
  else if req.payload.scheme ≠ config.scheme then
    (.failed (schemeMismatchReason req.payload.scheme config.scheme), [])
  else
    let auth := req.payload.payload.authorization
    let sig := req.payload.payload.signature
    let rt := verifyPayment env config auth sig req.requirements
    if rt.1.isValid = false then
      (.failed (rt.1.invalidReason.getD ""), rt.2)
    else
      let parts := parseSignature sig
      match jsBigIntE auth.value with
      | .error e => (.failed (settlementFailedReason e), rt.2)
      | .ok value =>
      match jsBigIntE auth.validAfter with
      | .error e => (.failed (settlementFailedReason e), rt.2)
      | .ok validAfter =>
      match jsBigIntE auth.validBefore with
      | .error e => (.failed (settlementFailedReason e), rt.2)
      | .ok validBefore =>
      match executeTransferWithAuthorization submit env config auth.«from»
          auth.«to» value validAfter validBefore auth.nonce parts.v parts.r
          parts.s with
      | .error e =>
        (.failed (settlementFailedReason e), rt.2 ++ [Action.submitA])
      | .ok txHash =>
        (.settled txHash config.networkId (rt.1.payer.getD ""),
          rt.2 ++ [Action.submitA])

/-! ### The ordered-pipeline comparator

firstFailingCheck states the spec's contract for the pipeline: given the
outcome of the recovery and the two ledger reads, the result is the
failure reason of the earliest failing business check, in the order
signer → time → nonce → balance → amount → recipient → asset, and Valid
only when every check passes. -/

/-- Spec-side description of checks 3–7 of the pipeline (nonce state,
balance, amount, recipient, asset), the part that runs once the time
window has been accepted. -/
def checksAfterTime (config : Config) (authorization : Authorization)
    (requirements : PaymentRequirements) (recovered : String)
    (nonceUsed : Bool) (balance value requiredAmount : Int) :
    VerificationResult :=
  if nonceUsed then
    invalidResult nonceUsedReason
  else if balance < requiredAmount then
    invalidResult (insufficientBalanceReason balance requiredAmount)
  else if value < requiredAmount then
    invalidResult (authAmountReason value requiredAmount)
  else if jsToLowerCase authorization.«to» ≠
      jsToLowerCase requirements.payTo then
    invalidResult (recipientMismatchReason authorization.«to»
      requirements.payTo)
  else if jsToLowerCase requirements.asset ≠
      jsToLowerCase config.qusdContractAddress then
    invalidResult (assetMismatchReason requirements.asset
      config.qusdContractAddress)
  else
    validResult recovered

/-- Spec-side description of the ordered, short-circuiting validation
pipeline (spec §4.3); compared with verifyPayment by refinement. -/
def firstFailingCheck (config : Config) (authorization : Authorization)
    (requirements : PaymentRequirements) (recovered : String) (now : Int)
    (nonceUsed : Bool) (balance value requiredAmount : Int) :
    VerificationResult :=
  if jsToLowerCase recovered ≠ jsToLowerCase authorization.«from» then
    invalidResult (signerMismatchReason recovered authorization.«from»)
  else if jsLtNum now (jsParseInt authorization.validAfter) then
    invalidResult (notYetValidReason (jsParseInt authorization.validAfter) now)
  else if jsGeNum now (jsParseInt authorization.validBefore) then
    invalidResult (expiredReason (jsParseInt authorization.validBefore) now)
  else
    checksAfterTime config authorization requirements recovered nonceUsed
      balance value requiredAmount

/-! ### Canonical decimal numerals

The spec's data model says value / validAfter / validBefore are unsigned
integers encoded as decimal strings; isDecDigits recognises exactly those
canonical encodings, on which parseInt and BigInt agree. -/

/-- A non-empty string of decimal digits. -/
def isDecDigits (s : String) : Bool := !s.data.isEmpty && s.data.all isDecChar

/-- Numeric value of a decimal-digit string. -/
def decValue (s : String) : Int := (leadDecLoop s.data 0 : Int)

lemma isDecChar_not_ws {c : Char} (h : isDecChar c = true) :
    isWsChar c = false := by
  simp only [isDecChar, Bool.and_eq_true, decide_eq_true_eq] at h
  simp only [isWsChar, Bool.or_eq_false_iff, decide_eq_false_iff_not]
  omega

lemma trimLeftWs_all_dec {l : List Char} (h : l.all isDecChar = true) :
    trimLeftWs l = l := by
  cases l with
  | nil => rfl
  | cons c rest =>
    simp only [List.all_cons, Bool.and_eq_true] at h
    simp [trimLeftWs, isDecChar_not_ws h.1]

lemma trimWs_all_dec {l : List Char} (h : l.all isDecChar = true) :
    trimWs l = l := by
  have hrev : l.reverse.all isDecChar = true := by
    simpa [List.all_reverse] using h
  unfold trimWs
  rw [trimLeftWs_all_dec h, trimLeftWs_all_dec hrev, List.reverse_reverse]

lemma readSign_all_dec {l : List Char} (h : l.all isDecChar = true) :
    readSign l = (1, l) := by
  cases l with
  | nil => rfl
  | cons c rest =>
    simp only [List.all_cons, Bool.and_eq_true] at h
    have hc := h.1
    simp only [isDecChar, Bool.and_eq_true, decide_eq_true_eq] at hc
    simp only [readSign]
    rw [if_neg (by omega), if_neg (by omega)]

lemma startsHex0x_all_dec {l : List Char} (h : l.all isDecChar = true) :
    startsHex0x l = false := by
  match l with
  | [] => rfl
  | [_] => rfl
  | c0 :: c1 :: rest =>
    simp only [List.all_cons, Bool.and_eq_true] at h
    have hc := h.2.1
    simp only [isDecChar, Bool.and_eq_true, decide_eq_true_eq] at hc
    simp only [startsHex0x, Bool.and_eq_false_iff, Bool.or_eq_false_iff,
      decide_eq_false_iff_not]
    right
    omega

lemma startsBin0b_all_dec {l : List Char} (h : l.all isDecChar = true) :
    startsBin0b l = false := by
  match l with
  | [] => rfl
  | [_] => rfl
  | c0 :: c1 :: rest =>
    simp only [List.all_cons, Bool.and_eq_true] at h
    have hc := h.2.1
    simp only [isDecChar, Bool.and_eq_true, decide_eq_true_eq] at hc
    simp only [startsBin0b, Bool.and_eq_false_iff, Bool.or_eq_false_iff,
      decide_eq_false_iff_not]
    right
    omega

lemma startsOct0o_all_dec {l : List Char} (h : l.all isDecChar = true) :
    startsOct0o l = false := by
  match l with
  | [] => rfl
  | [_] => rfl
  | c0 :: c1 :: rest =>
    simp only [List.all_cons, Bool.and_eq_true] at h
    have hc := h.2.1
    simp only [isDecChar, Bool.and_eq_true, decide_eq_true_eq] at hc
    simp only [startsOct0o, Bool.and_eq_false_iff, Bool.or_eq_false_iff,
      decide_eq_false_iff_not]
    right
    omega

/-- On a canonical decimal numeral, parseInt returns its value. -/
lemma jsParseInt_decDigits {s : String} (h : isDecDigits s = true) :
    jsParseInt s = some (decValue s) := by
  simp only [isDecDigits, Bool.and_eq_true, Bool.not_eq_true'] at h
  obtain ⟨hne, hall⟩ := h
  simp only [jsParseInt, trimLeftWs_all_dec hall, readSign_all_dec hall,
    startsHex0x_all_dec hall, if_false, Bool.false_eq_true]
  cases hd : s.data with
  | nil => rw [hd] at hne; simp at hne
  | cons c rest =>
    have hc : isDecChar c = true := by
      rw [hd] at hall
      simp only [List.all_cons, Bool.and_eq_true] at hall
      exact hall.1
    simp [hc, decValue, hd]

/-- On a canonical decimal numeral, BigInt returns its value. -/
lemma jsBigIntE_decDigits {s : String} (h : isDecDigits s = true) :
    jsBigIntE s = .ok (decValue s) := by
  simp only [isDecDigits, Bool.and_eq_true, Bool.not_eq_true'] at h
  obtain ⟨hne, hall⟩ := h
  simp only [jsBigIntE, trimWs_all_dec hall, startsHex0x_all_dec hall,
    startsBin0b_all_dec hall, startsOct0o_all_dec hall,
    readSign_all_dec hall, if_false, Bool.false_eq_true]
  cases hd : s.data with
  | nil => rw [hd] at hne; simp at hne
  | cons c rest =>
    rw [hd] at hall
    simp [hall, decValue, hd]

/-! ### Shared example fixtures -/

/-- A facilitator configuration used by concrete witnesses. -/
def exampleConfig : Config :=
  { tokenName := "QUSD", tokenVersion := "1"
  , qusdContractAddress := "0xCc03", networkId := "eip155:1990"
  , scheme := "exact" }

/-- A benign oracle environment: recovery finds the example payer (in a
different character case than the authorization states it), the nonce is
unused, the balance ample. -/
def exampleEnv : Env :=
  { recoverTypedDataAddress := fun _ => .ok "0xaA01"
  , now := 1000
  , isNonceUsed := fun _ _ => .ok false
  , getBalance := fun _ => .ok 2000000
  , walletConfigured := true }

/-- An authorization accepted end to end under exampleEnv. -/
def exampleAuth : Authorization :=
  { «from» := "0xAa01", «to» := "0xBb02", value := "1000000"
  , validAfter := "0", validBefore := "9999999999", nonce := "0xn1" }

/-- Requirements matching exampleAuth under exampleConfig. -/
def exampleReqs : PaymentRequirements :=
  { scheme := "exact", network := "eip155:1990", asset := "0xcC03"
  , amount := "500000", payTo := "0xbB02", maxTimeoutSeconds := 60 }

/-- A verify/settle request wrapping exampleAuth. -/
def exampleRequest : FacilitatorRequest :=
  { payload :=
      { x402Version := 1, scheme := "exact", network := "eip155:1990"
      , payload := { signature := "0xs1", authorization := exampleAuth } }
  , requirements := exampleReqs }

/-! ### Inversion of a Valid verdict -/

/-- Everything that must have happened when verifyPayment answered
`isValid = true`: each conversion and oracle call succeeded, and every one
of the seven business checks passed. Shared backbone for the invariant
claims. -/
lemma verifyPayment_valid_inversion (env : Env) (config : Config)
    (a : Authorization) (sg : String) (r : PaymentRequirements)
    (h : (verifyPaymentResult env config a sg r).isValid = true) :
    ∃ value vA vB rec balance amt,
      jsBigIntE a.value = .ok value ∧
      jsBigIntE a.validAfter = .ok vA ∧
      jsBigIntE a.validBefore = .ok vB ∧
      env.recoverTypedDataAddress (buildTypedData config a value vA vB sg)
        = .ok rec ∧
      jsToLowerCase rec = jsToLowerCase a.«from» ∧
      jsLtNum env.now (jsParseInt a.validAfter) = false ∧
      jsGeNum env.now (jsParseInt a.validBefore) = false ∧
      env.isNonceUsed a.«from» a.nonce = .ok false ∧
      env.getBalance a.«from» = .ok balance ∧
      jsBigIntE r.amount = .ok amt ∧
      amt ≤ balance ∧
      amt ≤ value ∧
      jsToLowerCase a.«to» = jsToLowerCase r.payTo ∧
      jsToLowerCase r.asset = jsToLowerCase config.qusdContractAddress ∧
      verifyPaymentResult env config a sg r = validResult rec := by
  unfold verifyPaymentResult verifyPayment verifyPaymentRaw at h
  cases hv : jsBigIntE a.value with
  | error e => simp [hv, invalidResult] at h
  | ok value =>
  simp only [hv] at h
  cases hva : jsBigIntE a.validAfter with
  | error e => simp [hva, invalidResult] at h
  | ok vA =>
  simp only [hva] at h
  cases hvb : jsBigIntE a.validBefore with
  | error e => simp [hvb, invalidResult] at h
  | ok vB =>
  simp only [hvb] at h
  cases hrec : env.recoverTypedDataAddress
      (buildTypedData config a value vA vB sg) with
  | error e => simp [hrec, invalidResult] at h
  | ok rec =>
  simp only [hrec] at h
  by_cases hA : jsToLowerCase rec = jsToLowerCase a.«from»
  case neg => simp [hA, invalidResult] at h
  by_cases hB : jsLtNum env.now (jsParseInt a.validAfter) = true
  case pos => simp [hA, hB, invalidResult] at h
  by_cases hC : jsGeNum env.now (jsParseInt a.validBefore) = true
  case pos => simp [hA, hB, hC, invalidResult] at h
  cases hn : env.isNonceUsed a.«from» a.nonce with
  | error e => simp [hA, hB, hC, hn, invalidResult] at h
  | ok nonceUsed =>
  cases nonceUsed with
  | true => simp [hA, hB, hC, hn, invalidResult] at h
  | false =>
  cases hb : env.getBalance a.«from» with
  | error e => simp [hA, hB, hC, hn, hb, invalidResult] at h
  | ok balance =>
  cases ham : jsBigIntE r.amount with
  | error e => simp [hA, hB, hC, hn, hb, ham, invalidResult] at h
  | ok amt =>
  by_cases hE : balance < amt
  case pos => simp [hA, hB, hC, hn, hb, ham, hE, invalidResult] at h
  by_cases hF : value < amt
  case pos => simp [hA, hB, hC, hn, hb, ham, hE, hF, hv, invalidResult] at h
  by_cases hG : jsToLowerCase a.«to» = jsToLowerCase r.payTo
  case neg =>
    simp [hA, hB, hC, hn, hb, ham, hE, hF, hG, hv, invalidResult] at h
  by_cases hH : jsToLowerCase r.asset = jsToLowerCase config.qusdContractAddress
  case neg =>
    simp [hA, hB, hC, hn, hb, ham, hE, hF, hG, hH, hv, invalidResult] at h
  refine ⟨value, vA, vB, rec, balance, amt, rfl, rfl, rfl, hrec, hA,
    by simpa using hB, by simpa using hC, rfl, rfl, rfl,
    by omega, by omega, hG, hH, ?_⟩
  unfold verifyPaymentResult verifyPayment verifyPaymentRaw
  simp only [hv, hva, hvb, hrec]
  simp [hA, hB, hC, hn, hb, ham, hE, hF, hG, hH]

/-! ### Claim C5 -/

/-- C5: the validation pipeline is ordered and short-circuiting, in the
order signer match, time window, nonce state, balance, authorization
amount, recipient, asset. Whenever the conversions and the oracles
deliver values, verifyPayment's verdict equals firstFailingCheck, the
function that returns the reason of the earliest failing check of that
order and consults no later check. -/
theorem pipeline_first_failing_check (env : Env) (config : Config)
    (a : Authorization) (sg : String) (r : PaymentRequirements)
    (value vA vB amt balance : Int) (rec : String) (nonceUsed : Bool)
    (h1 : jsBigIntE a.value = .ok value)
    (h2 : jsBigIntE a.validAfter = .ok vA)
    (h3 : jsBigIntE a.validBefore = .ok vB)
    (h4 : env.recoverTypedDataAddress (buildTypedData config a value vA vB sg)
        = .ok rec)
    (h5 : env.isNonceUsed a.«from» a.nonce = .ok nonceUsed)
    (h6 : env.getBalance a.«from» = .ok balance)
    (h7 : jsBigIntE r.amount = .ok amt) :
    verifyPaymentResult env config a sg r =
      firstFailingCheck config a r rec env.now nonceUsed balance value amt := by
  unfold verifyPaymentResult verifyPayment verifyPaymentRaw firstFailingCheck
    checksAfterTime
  simp only [h1, h2, h3, h4, h5, h6, h7]
  by_cases hA : jsToLowerCase rec = jsToLowerCase a.«from»
  case neg => simp [hA]
  by_cases hB : jsLtNum env.now (jsParseInt a.validAfter) = true
  case pos => simp [hA, hB]
  by_cases hC : jsGeNum env.now (jsParseInt a.validBefore) = true
  case pos => simp [hA, hB, hC]
  by_cases hD : nonceUsed = true
  case pos => simp [hA, hB, hC, hD]
  by_cases hE : balance < amt
  case pos => simp [hA, hB, hC, hD, hE]
  by_cases hF : value < amt
  case pos => simp [hA, hB, hC, hD, hE, hF]
  by_cases hG : jsToLowerCase a.«to» = jsToLowerCase r.payTo
  case neg => simp [hA, hB, hC, hD, hE, hF, hG]
  by_cases hH : jsToLowerCase r.asset = jsToLowerCase config.qusdContractAddress
  case neg => simp [hA, hB, hC, hD, hE, hF, hG, hH]
  simp [hA, hB, hC, hD, hE, hF, hG, hH]

/-- An environment whose ledger reports the example nonce as consumed and
the example balance as zero: two checks fail at once. -/
def usedNonceEnv : Env :=
  { exampleEnv with
      isNonceUsed := fun _ _ => .ok true
    , getBalance := fun _ => .ok 0 }

/-- Requirements whose payTo does not match exampleAuth's recipient. -/
def mismatchedPayToReqs : PaymentRequirements :=
  { exampleReqs with payTo := "0xZZ" }

/-- Witness for C5 at a concrete input failing three checks at once
(nonce consumed, balance too low, recipient mismatched): the verdict is
the earliest failure, the nonce reason. -/
theorem pipeline_first_failing_check_witness :
    verifyPaymentResult usedNonceEnv exampleConfig exampleAuth "0xs1"
        mismatchedPayToReqs =
      firstFailingCheck exampleConfig exampleAuth mismatchedPayToReqs
        "0xaA01" 1000 true 0 1000000 500000 ∧
    verifyPaymentResult usedNonceEnv exampleConfig exampleAuth "0xs1"
        mismatchedPayToReqs = invalidResult nonceUsedReason :=
  ⟨pipeline_first_failing_check usedNonceEnv exampleConfig exampleAuth "0xs1"
      mismatchedPayToReqs 1000000 0 9999999999 500000 0 "0xaA01" true
      rfl rfl rfl rfl rfl rfl rfl,
    by decide⟩

/-! ### Claim C1 -/

lemma jsLtNum_false_decDigits {s : String} {now : Int}
    (hd : isDecDigits s = true) (h : jsLtNum now (jsParseInt s) = false) :
    decValue s ≤ now := by
  rw [jsParseInt_decDigits hd] at h
  simp only [jsLtNum, decide_eq_false_iff_not] at h
  omega

lemma jsGeNum_false_decDigits {s : String} {now : Int}
    (hd : isDecDigits s = true) (h : jsGeNum now (jsParseInt s) = false) :
    now < decValue s := by
  rw [jsParseInt_decDigits hd] at h
  simp only [jsGeNum, decide_eq_false_iff_not] at h
  omega

/-- An authorization whose validBefore is the empty string. The request
schema (authorizationSchema) admits it: validBefore is an arbitrary
string. BigInt("") is 0n, so the signed message carries validBefore = 0,
while parseInt("") is NaN, so both time comparisons are false and the
expiry check silently passes. -/
def emptyValidBeforeAuth : Authorization :=
  { exampleAuth with validBefore := "" }

/-- C1, counterexample. The claim says a Valid verdict implies
`now < validBefore`, reading validBefore at its numeric value — the
StringToBigInt reading, the value bound into the signed typed-data
message. At validBefore = "" verifyPayment answers Valid although that
numeric value is 0 and now = 1000 is not below it: the expiry invariant
does not hold as stated. -/
theorem verifyPayment_time_invariant_counterexample :
    (verifyPaymentResult exampleEnv exampleConfig emptyValidBeforeAuth
        "0xs1" exampleReqs).isValid = true ∧
    jsBigIntE emptyValidBeforeAuth.validBefore = .ok 0 ∧
    exampleEnv.now = 1000 ∧
    ¬ ((1000 : Int) < 0) := by
  refine ⟨by decide, rfl, rfl, by decide⟩

/-- C1, as amended. When verifyPayment returns a Valid verdict, the seven
invariants hold, with the time-window invariant (2) restricted to
authorizations whose validAfter / validBefore are canonical decimal
numerals (a non-empty string of decimal digits — the encoding the spec's
data model prescribes); for those, parseInt agrees with the numeric value.
Invariants: (1) the recovered signer equals authorization.from after
lowercasing; (2) validAfter ≤ now < validBefore on canonical numerals;
(3) the ledger reported the (from, nonce) pair unconsumed; (4) the ledger
balance of `from` is at least requirements.amount; (5) authorization.value
is at least requirements.amount; (6) authorization.to equals
requirements.payTo after lowercasing; (7) requirements.asset equals the
configured token contract address after lowercasing. -/
theorem verifyPayment_valid_invariants (env : Env) (config : Config)
    (a : Authorization) (sg : String) (r : PaymentRequirements)
    (h : (verifyPaymentResult env config a sg r).isValid = true) :
    (∃ value vA vB rec,
        jsBigIntE a.value = .ok value ∧
        jsBigIntE a.validAfter = .ok vA ∧
        jsBigIntE a.validBefore = .ok vB ∧
        env.recoverTypedDataAddress (buildTypedData config a value vA vB sg)
          = .ok rec ∧
        jsToLowerCase rec = jsToLowerCase a.«from») ∧
    (isDecDigits a.validAfter = true → decValue a.validAfter ≤ env.now) ∧
    (isDecDigits a.validBefore = true → env.now < decValue a.validBefore) ∧
    env.isNonceUsed a.«from» a.nonce = .ok false ∧
    (∃ balance amt, env.getBalance a.«from» = .ok balance ∧
        jsBigIntE r.amount = .ok amt ∧ amt ≤ balance) ∧
    (∃ value amt, jsBigIntE a.value = .ok value ∧
        jsBigIntE r.amount = .ok amt ∧ amt ≤ value) ∧
    jsToLowerCase a.«to» = jsToLowerCase r.payTo ∧
    jsToLowerCase r.asset = jsToLowerCase config.qusdContractAddress := by
  obtain ⟨value, vA, vB, rec, balance, amt, hv, hva, hvb, hrec, hA, hB, hC,
    hn, hb, ham, hbal, hval, hG, hH, _⟩ :=
    verifyPayment_valid_inversion env config a sg r h
  exact ⟨⟨value, vA, vB, rec, hv, hva, hvb, hrec, hA⟩,
    fun hd => jsLtNum_false_decDigits hd hB,
    fun hd => jsGeNum_false_decDigits hd hC,
    hn, ⟨balance, amt, hb, ham, hbal⟩, ⟨value, amt, hv, ham, hval⟩, hG, hH⟩

/-- Witness for the amended C1 at the accepted example scenario. -/
theorem verifyPayment_valid_invariants_witness :
    (verifyPaymentResult exampleEnv exampleConfig exampleAuth "0xs1"
        exampleReqs).isValid = true ∧
    ((∃ value vA vB rec,
        jsBigIntE exampleAuth.value = .ok value ∧
        jsBigIntE exampleAuth.validAfter = .ok vA ∧
        jsBigIntE exampleAuth.validBefore = .ok vB ∧
        exampleEnv.recoverTypedDataAddress
            (buildTypedData exampleConfig exampleAuth value vA vB "0xs1")
          = .ok rec ∧
        jsToLowerCase rec = jsToLowerCase exampleAuth.«from») ∧
    (isDecDigits exampleAuth.validAfter = true →
        decValue exampleAuth.validAfter ≤ exampleEnv.now) ∧
    (isDecDigits exampleAuth.validBefore = true →
        exampleEnv.now < decValue exampleAuth.validBefore) ∧
    exampleEnv.isNonceUsed exampleAuth.«from» exampleAuth.nonce = .ok false ∧
    (∃ balance amt, exampleEnv.getBalance exampleAuth.«from» = .ok balance ∧
        jsBigIntE exampleReqs.amount = .ok amt ∧ amt ≤ balance) ∧
    (∃ value amt, jsBigIntE exampleAuth.value = .ok value ∧
        jsBigIntE exampleReqs.amount = .ok amt ∧ amt ≤ value) ∧
    jsToLowerCase exampleAuth.«to» = jsToLowerCase exampleReqs.payTo ∧
    jsToLowerCase exampleReqs.asset =
      jsToLowerCase exampleConfig.qusdContractAddress) :=
  ⟨by decide,
    verifyPayment_valid_invariants exampleEnv exampleConfig exampleAuth
      "0xs1" exampleReqs (by decide)⟩

/-! ### Claim C9 -/

/-- C9: when verifyPayment answers Valid, the payer it reports is the
string the recovery oracle returned — not the authorization.from string —
and the two agree after lowercasing. -/
theorem valid_payer_is_recovered_address (env : Env) (config : Config)
    (a : Authorization) (sg : String) (r : PaymentRequirements)
    (h : (verifyPaymentResult env config a sg r).isValid = true) :
    ∃ value vA vB rec,
      jsBigIntE a.value = .ok value ∧
      jsBigIntE a.validAfter = .ok vA ∧
      jsBigIntE a.validBefore = .ok vB ∧
      env.recoverTypedDataAddress (buildTypedData config a value vA vB sg)
        = .ok rec ∧
      (verifyPaymentResult env config a sg r).payer = some rec ∧
      jsToLowerCase rec = jsToLowerCase a.«from» := by
  obtain ⟨value, vA, vB, rec, balance, amt, hv, hva, hvb, hrec, hA, _, _,
    _, _, _, _, _, _, _, hres⟩ :=
    verifyPayment_valid_inversion env config a sg r h
  exact ⟨value, vA, vB, rec, hv, hva, hvb, hrec, by rw [hres]; rfl, hA⟩

/-- Witness for C9: in the example scenario the recovery oracle answers
"0xaA01" while the authorization states "0xAa01"; the reported payer is
the recovered spelling, distinct verbatim from authorization.from but
equal after lowercasing. -/
theorem valid_payer_is_recovered_address_witness :
    (verifyPaymentResult exampleEnv exampleConfig exampleAuth "0xs1"
        exampleReqs).isValid = true ∧
    (∃ value vA vB rec,
      jsBigIntE exampleAuth.value = .ok value ∧
      jsBigIntE exampleAuth.validAfter = .ok vA ∧
      jsBigIntE exampleAuth.validBefore = .ok vB ∧
      exampleEnv.recoverTypedDataAddress
          (buildTypedData exampleConfig exampleAuth value vA vB "0xs1")
        = .ok rec ∧
      (verifyPaymentResult exampleEnv exampleConfig exampleAuth "0xs1"
          exampleReqs).payer = some rec ∧
      jsToLowerCase rec = jsToLowerCase exampleAuth.«from») ∧
    (verifyPaymentResult exampleEnv exampleConfig exampleAuth "0xs1"
        exampleReqs).payer = some "0xaA01" ∧
    "0xaA01" ≠ exampleAuth.«from» :=
  ⟨by decide,
    valid_payer_is_recovered_address exampleEnv exampleConfig exampleAuth
      "0xs1" exampleReqs (by decide),
    by decide, by decide⟩

/-! ### Claim C4 -/

/-- An authorization with an inverted time window: validAfter = 10,
validBefore = 5. -/
def invertedWindowAuth : Authorization :=
  { exampleAuth with validAfter := "10", validBefore := "5" }

/-- The example environment at wall-clock second 7. -/
def smallNowEnv : Env := { exampleEnv with now := 7 }

/-- C4, counterexample. The claim says that whenever t ≥ validBefore the
validator returns the expired failure. At validAfter = 10, validBefore = 5
and t = 7 we have t ≥ validBefore, yet the code checks the lower bound
first and returns the not-yet-valid failure instead: for inverted windows
the two stated cases overlap and not-yet-valid wins. -/
theorem time_window_inverted_counterexample :
    decValue invertedWindowAuth.validBefore = 5 ∧
    smallNowEnv.now = 7 ∧
    (5 : Int) ≤ 7 ∧
    verifyPaymentResult smallNowEnv exampleConfig invertedWindowAuth "0xs1"
        exampleReqs =
      invalidResult (notYetValidReason (some 10) 7) ∧
    verifyPaymentResult smallNowEnv exampleConfig invertedWindowAuth "0xs1"
        exampleReqs ≠
      invalidResult (expiredReason (some 5) 7) := by
  refine ⟨rfl, rfl, by decide, by decide, by decide⟩

/-- C4, as amended. For canonical decimal validAfter / validBefore, once
the pipeline reaches the time check (recovery succeeded and the signer
matched): t < validAfter gives the not-yet-valid failure; t ≥ validAfter
and t ≥ validBefore gives the expired failure; validAfter ≤ t < validBefore
passes the time check — the verdict is then exactly that of the remaining
checks (checksAfterTime). The boundary t = validAfter passes, t =
validBefore fails as expired. The amendment: the expired case additionally
requires t ≥ validAfter, because for inverted windows the not-yet-valid
failure takes precedence. -/
theorem time_window_check (env : Env) (config : Config)
    (a : Authorization) (sg : String) (r : PaymentRequirements)
    (value vA vB amt balance : Int) (rec : String) (nonceUsed : Bool)
    (h1 : jsBigIntE a.value = .ok value)
    (h2 : jsBigIntE a.validAfter = .ok vA)
    (h3 : jsBigIntE a.validBefore = .ok vB)
    (h4 : env.recoverTypedDataAddress (buildTypedData config a value vA vB sg)
        = .ok rec)
    (hA : jsToLowerCase rec = jsToLowerCase a.«from»)
    (hdA : isDecDigits a.validAfter = true)
    (hdB : isDecDigits a.validBefore = true)
    (h5 : env.isNonceUsed a.«from» a.nonce = .ok nonceUsed)
    (h6 : env.getBalance a.«from» = .ok balance)
    (h7 : jsBigIntE r.amount = .ok amt) :
    (env.now < decValue a.validAfter →
      verifyPaymentResult env config a sg r =
        invalidResult
          (notYetValidReason (some (decValue a.validAfter)) env.now)) ∧
    (decValue a.validAfter ≤ env.now → decValue a.validBefore ≤ env.now →
      verifyPaymentResult env config a sg r =
        invalidResult
          (expiredReason (some (decValue a.validBefore)) env.now)) ∧
    (decValue a.validAfter ≤ env.now → env.now < decValue a.validBefore →
      verifyPaymentResult env config a sg r =
        checksAfterTime config a r rec nonceUsed balance value amt) := by
  have hpA := jsParseInt_decDigits hdA
  have hpB := jsParseInt_decDigits hdB
  refine ⟨fun hlt => ?_, fun hge hexp => ?_, fun hge hok => ?_⟩
  · unfold verifyPaymentResult verifyPayment verifyPaymentRaw
    simp only [h1, h2, h3, h4, hpA]
    simp [hA, jsLtNum, hlt]
  · unfold verifyPaymentResult verifyPayment verifyPaymentRaw
    simp only [h1, h2, h3, h4, hpA, hpB]
    simp [hA, jsLtNum, jsGeNum,
      show ¬ (env.now < decValue a.validAfter) by omega, hexp]
  · unfold verifyPaymentResult verifyPayment verifyPaymentRaw checksAfterTime
    simp only [h1, h2, h3, h4, h5, h6, h7, hpA, hpB]
    have hnlt : ¬ (env.now < decValue a.validAfter) := by omega
    have hnge : ¬ (decValue a.validBefore ≤ env.now) := by omega
    by_cases hD : nonceUsed = true
    case pos => simp [hA, jsLtNum, jsGeNum, hnlt, hnge, hD]
    by_cases hE : balance < amt
    case pos => simp [hA, jsLtNum, jsGeNum, hnlt, hnge, hD, hE]
    by_cases hF : value < amt
    case pos => simp [hA, jsLtNum, jsGeNum, hnlt, hnge, hD, hE, hF]
    by_cases hG : jsToLowerCase a.«to» = jsToLowerCase r.payTo
    case neg => simp [hA, jsLtNum, jsGeNum, hnlt, hnge, hD, hE, hF, hG]
    by_cases hH : jsToLowerCase r.asset =
      jsToLowerCase config.qusdContractAddress
    case neg => simp [hA, jsLtNum, jsGeNum, hnlt, hnge, hD, hE, hF, hG, hH]
    simp [hA, jsLtNum, jsGeNum, hnlt, hnge, hD, hE, hF, hG, hH]

/-- Witness for the amended C4 at the example scenario (window 0 ≤ 1000 <
9999999999): the time check passes and the verdict is that of the
remaining checks, concretely Valid. -/
theorem time_window_check_witness :
    ((exampleEnv.now < decValue exampleAuth.validAfter →
      verifyPaymentResult exampleEnv exampleConfig exampleAuth "0xs1"
          exampleReqs =
        invalidResult (notYetValidReason
          (some (decValue exampleAuth.validAfter)) exampleEnv.now)) ∧
    (decValue exampleAuth.validAfter ≤ exampleEnv.now →
      decValue exampleAuth.validBefore ≤ exampleEnv.now →
      verifyPaymentResult exampleEnv exampleConfig exampleAuth "0xs1"
          exampleReqs =
        invalidResult (expiredReason
          (some (decValue exampleAuth.validBefore)) exampleEnv.now)) ∧
    (decValue exampleAuth.validAfter ≤ exampleEnv.now →
      exampleEnv.now < decValue exampleAuth.validBefore →
      verifyPaymentResult exampleEnv exampleConfig exampleAuth "0xs1"
          exampleReqs =
        checksAfterTime exampleConfig exampleAuth exampleReqs "0xaA01"
          false 2000000 1000000 500000)) ∧
    checksAfterTime exampleConfig exampleAuth exampleReqs "0xaA01"
        false 2000000 1000000 500000 = validResult "0xaA01" :=
  ⟨time_window_check exampleEnv exampleConfig exampleAuth "0xs1" exampleReqs
      1000000 0 9999999999 500000 2000000 "0xaA01" false
      rfl rfl rfl rfl (by decide) (by decide) (by decide) rfl rfl rfl,
    by decide⟩

/-! ### Claim C7 -/

/-- C7: verifyPayment's catch boundary. Whatever step of the try body
throws — a BigInt conversion, the recovery call, or either ledger read —
with message e, the caller receives the structured verdict
`{isValid:false, invalidReason:"Verification error: " ++ e}` carrying the
cause, and no exception escapes. -/
theorem verifyPayment_wraps_faults (env : Env) (config : Config)
    (a : Authorization) (sg : String) (r : PaymentRequirements)
    (e : String) (tr : List Action)
    (hraw : verifyPaymentRaw env config a sg r = (.error e, tr)) :
    verifyPayment env config a sg r =
      (invalidResult (verificationErrorReason e), tr) ∧
    (verifyPaymentResult env config a sg r).isValid = false ∧
    (verifyPaymentResult env config a sg r).invalidReason =
      some ("Verification error: " ++ e) := by
  have hmain : verifyPayment env config a sg r =
      (invalidResult (verificationErrorReason e), tr) := by
    unfold verifyPayment
    rw [hraw]
  refine ⟨hmain, ?_, ?_⟩
  · simp [verifyPaymentResult, hmain, invalidResult]
  · simp [verifyPaymentResult, hmain, invalidResult, verificationErrorReason]

/-- An environment whose nonce-state ledger read fails in transport. -/
def failingNonceEnv : Env :=
  { exampleEnv with isNonceUsed := fun _ _ => .error "connect ECONNREFUSED" }

/-- Witness for C7: with the nonce read failing in transport, the try
body throws after recovery and the nonce read, and verifyPayment returns
the wrapped structured verdict. -/
theorem verifyPayment_wraps_faults_witness :
    verifyPaymentRaw failingNonceEnv exampleConfig exampleAuth "0xs1"
        exampleReqs =
      (.error "connect ECONNREFUSED", [Action.recoverA, Action.nonceReadA]) ∧
    (verifyPayment failingNonceEnv exampleConfig exampleAuth "0xs1"
        exampleReqs =
      (invalidResult (verificationErrorReason "connect ECONNREFUSED"),
        [Action.recoverA, Action.nonceReadA]) ∧
    (verifyPaymentResult failingNonceEnv exampleConfig exampleAuth "0xs1"
        exampleReqs).isValid = false ∧
    (verifyPaymentResult failingNonceEnv exampleConfig exampleAuth "0xs1"
        exampleReqs).invalidReason =
      some ("Verification error: " ++ "connect ECONNREFUSED")) :=
  ⟨rfl,
    verifyPayment_wraps_faults failingNonceEnv exampleConfig exampleAuth
      "0xs1" exampleReqs "connect ECONNREFUSED"
      [Action.recoverA, Action.nonceReadA] rfl⟩

/-! ### Claim C10 -/

/-- The result component of verifyPayment, written through the try body's
outcome. -/
lemma verifyPayment_fst_eq (env : Env) (config : Config) (a : Authorization)
    (sg : String) (r : PaymentRequirements) :
    verifyPaymentResult env config a sg r =
      (match (verifyPaymentRaw env config a sg r).1 with
        | .ok res => res
        | .error e => invalidResult (verificationErrorReason e)) := by
  unfold verifyPaymentResult verifyPayment
  rcases hraw : verifyPaymentRaw env config a sg r with ⟨er, tr⟩
  cases er <;> rfl

/-- The trace component of verifyPayment equals that of the try body: the
catch block drops no performed call. -/
lemma verifyPayment_snd_eq (env : Env) (config : Config) (a : Authorization)
    (sg : String) (r : PaymentRequirements) :
    (verifyPayment env config a sg r).2 =
      (verifyPaymentRaw env config a sg r).2 := by
  unfold verifyPayment
  rcases hraw : verifyPaymentRaw env config a sg r with ⟨er, tr⟩
  cases er <;> rfl

/-- The try body's outcome is a throw, a Valid verdict, or an Invalid
verdict, and its trace never contains the ledger write. -/
lemma verifyPaymentRaw_out (env : Env) (config : Config)
    (a : Authorization) (sg : String) (r : PaymentRequirements)
    (er : Except String VerificationResult) (tr : List Action)
    (h : verifyPaymentRaw env config a sg r = (er, tr)) :
    ((∃ e, er = .error e) ∨ (∃ rec, er = .ok (validResult rec)) ∨
      (∃ reason, er = .ok (invalidResult reason))) ∧
    Action.submitA ∉ tr := by
  unfold verifyPaymentRaw at h
  cases hv : jsBigIntE a.value with
  | error e =>
    simp only [hv] at h
    injection h with h1 h2
    subst h1
    subst h2
    exact ⟨Or.inl ⟨_, rfl⟩, by simp⟩
  | ok value =>
  simp only [hv] at h
  cases hva : jsBigIntE a.validAfter with
  | error e =>
    simp only [hva] at h
    injection h with h1 h2
    subst h1
    subst h2
    exact ⟨Or.inl ⟨_, rfl⟩, by simp⟩
  | ok vA =>
  simp only [hva] at h
  cases hvb : jsBigIntE a.validBefore with
  | error e =>
    simp only [hvb] at h
    injection h with h1 h2
    subst h1
    subst h2
    exact ⟨Or.inl ⟨_, rfl⟩, by simp⟩
  | ok vB =>
  simp only [hvb] at h
  cases hrec : env.recoverTypedDataAddress
      (buildTypedData config a value vA vB sg) with
  | error e =>
    simp only [hrec] at h
    injection h with h1 h2
    subst h1
    subst h2
    exact ⟨Or.inl ⟨_, rfl⟩, by simp⟩
  | ok rec =>
  simp only [hrec] at h
  by_cases hA : jsToLowerCase rec = jsToLowerCase a.«from»
  case neg =>
    rw [if_pos hA] at h
    injection h with h1 h2
    subst h1
    subst h2
    exact ⟨Or.inr (Or.inr ⟨_, rfl⟩), by simp⟩
  rw [if_neg (not_not_intro hA)] at h
  by_cases hB : jsLtNum env.now (jsParseInt a.validAfter) = true
  case pos =>
    rw [if_pos hB] at h
    injection h with h1 h2
    subst h1
    subst h2
    exact ⟨Or.inr (Or.inr ⟨_, rfl⟩), by simp⟩
  rw [if_neg hB] at h
  by_cases hC : jsGeNum env.now (jsParseInt a.validBefore) = true
  case pos =>
    rw [if_pos hC] at h
    injection h with h1 h2
    subst h1
    subst h2
    exact ⟨Or.inr (Or.inr ⟨_, rfl⟩), by simp⟩
  rw [if_neg hC] at h
  cases hn : env.isNonceUsed a.«from» a.nonce with
  | error e =>
    simp only [hn] at h
    injection h with h1 h2
    subst h1
    subst h2
    exact ⟨Or.inl ⟨_, rfl⟩, by simp⟩
  | ok nonceUsed =>
  simp only [hn] at h
  cases nonceUsed with
  | true =>
    rw [if_pos rfl] at h
    injection h with h1 h2
    subst h1
    subst h2
    exact ⟨Or.inr (Or.inr ⟨_, rfl⟩), by simp⟩
  | false =>
  rw [if_neg (by simp)] at h
  cases hb : env.getBalance a.«from» with
  | error e =>
    simp only [hb] at h
    injection h with h1 h2
    subst h1
    subst h2
    exact ⟨Or.inl ⟨_, rfl⟩, by simp⟩
  | ok balance =>
  simp only [hb] at h
  cases ham : jsBigIntE r.amount with
  | error e =>
    simp only [ham] at h
    injection h with h1 h2
    subst h1
    subst h2
    exact ⟨Or.inl ⟨_, rfl⟩, by simp⟩
  | ok amt =>
  simp only [ham] at h
  by_cases hE : balance < amt
  case pos =>
    rw [if_pos hE] at h
    injection h with h1 h2
    subst h1
    subst h2
    exact ⟨Or.inr (Or.inr ⟨_, rfl⟩), by simp⟩
  rw [if_neg hE] at h
  by_cases hF : value < amt
  case pos =>
    rw [if_pos hF] at h
    injection h with h1 h2
    subst h1
    subst h2
    exact ⟨Or.inr (Or.inr ⟨_, rfl⟩), by simp⟩
  rw [if_neg hF] at h
  by_cases hG : jsToLowerCase a.«to» = jsToLowerCase r.payTo
  case neg =>
    rw [if_pos hG] at h
    injection h with h1 h2
    subst h1
    subst h2
    exact ⟨Or.inr (Or.inr ⟨_, rfl⟩), by simp⟩
  rw [if_neg (not_not_intro hG)] at h
  by_cases hH : jsToLowerCase r.asset = jsToLowerCase config.qusdContractAddress
  case neg =>
    rw [if_pos hH] at h
    injection h with h1 h2
    subst h1
    subst h2
    exact ⟨Or.inr (Or.inr ⟨_, rfl⟩), by simp⟩
  rw [if_neg (not_not_intro hH)] at h
  injection h with h1 h2
  subst h1
  subst h2
  exact ⟨Or.inr (Or.inl ⟨_, rfl⟩), by simp⟩

/-- Every verdict verifyPayment can return is well-formed: Valid with a
payer present, or Invalid with a reason present. -/
lemma verifyPayment_shape (env : Env) (config : Config) (a : Authorization)
    (sg : String) (r : PaymentRequirements) :
    ((verifyPaymentResult env config a sg r).isValid = true ∧
      (verifyPaymentResult env config a sg r).payer.isSome = true) ∨
    ((verifyPaymentResult env config a sg r).isValid = false ∧
      (verifyPaymentResult env config a sg r).invalidReason.isSome = true)
    := by
  rcases hraw : verifyPaymentRaw env config a sg r with ⟨er, tr⟩
  rcases (verifyPaymentRaw_out env config a sg r er tr hraw).1 with
    ⟨e, rfl⟩ | ⟨rec, rfl⟩ | ⟨reason, rfl⟩ <;>
    simp [verifyPayment_fst_eq, hraw, invalidResult, validResult]

/-- C10: verifyPayment is total at its interface. For every authorization
(its value / validAfter / validBefore being arbitrary strings under the
request schema), signature and requirements, the result is a structured
verdict — Valid with payer, or Invalid with reason — and in particular a
BigInt conversion error on any of the three numeric fields is converted
into the wrapped Invalid verdict rather than thrown. -/
theorem verifyPayment_total (env : Env) (config : Config)
    (a : Authorization) (sg : String) (r : PaymentRequirements) :
    (((verifyPaymentResult env config a sg r).isValid = true ∧
        (verifyPaymentResult env config a sg r).payer.isSome = true) ∨
      ((verifyPaymentResult env config a sg r).isValid = false ∧
        (verifyPaymentResult env config a sg r).invalidReason.isSome
          = true)) ∧
    (∀ e, jsBigIntE a.value = .error e →
      verifyPaymentResult env config a sg r =
        invalidResult (verificationErrorReason e)) ∧
    (∀ v e, jsBigIntE a.value = .ok v → jsBigIntE a.validAfter = .error e →
      verifyPaymentResult env config a sg r =
        invalidResult (verificationErrorReason e)) ∧
    (∀ v vA e, jsBigIntE a.value = .ok v → jsBigIntE a.validAfter = .ok vA →
      jsBigIntE a.validBefore = .error e →
      verifyPaymentResult env config a sg r =
        invalidResult (verificationErrorReason e)) := by
  refine ⟨verifyPayment_shape env config a sg r, ?_, ?_, ?_⟩
  · intro e he
    unfold verifyPaymentResult verifyPayment verifyPaymentRaw
    simp [he]
  · intro v e hv he
    unfold verifyPaymentResult verifyPayment verifyPaymentRaw
    simp [hv, he]
  · intro v vA e hv hva he
    unfold verifyPaymentResult verifyPayment verifyPaymentRaw
    simp [hv, hva, he]

/-- An authorization whose value field is not numeric at all; the schema
admits it. -/
def badValueAuth : Authorization := { exampleAuth with value := "abc" }

/-- Witness for C10 at the authorization with value = "abc": BigInt
conversion throws inside the try body and the caller still receives a
structured Invalid verdict. -/
theorem verifyPayment_total_witness :
    ((((verifyPaymentResult exampleEnv exampleConfig badValueAuth "0xs1"
          exampleReqs).isValid = true ∧
        (verifyPaymentResult exampleEnv exampleConfig badValueAuth "0xs1"
          exampleReqs).payer.isSome = true) ∨
      ((verifyPaymentResult exampleEnv exampleConfig badValueAuth "0xs1"
          exampleReqs).isValid = false ∧
        (verifyPaymentResult exampleEnv exampleConfig badValueAuth "0xs1"
          exampleReqs).invalidReason.isSome = true)) ∧
    (∀ e, jsBigIntE badValueAuth.value = .error e →
      verifyPaymentResult exampleEnv exampleConfig badValueAuth "0xs1"
          exampleReqs =
        invalidResult (verificationErrorReason e)) ∧
    (∀ v e, jsBigIntE badValueAuth.value = .ok v →
      jsBigIntE badValueAuth.validAfter = .error e →
      verifyPaymentResult exampleEnv exampleConfig badValueAuth "0xs1"
          exampleReqs =
        invalidResult (verificationErrorReason e)) ∧
    (∀ v vA e, jsBigIntE badValueAuth.value = .ok v →
      jsBigIntE badValueAuth.validAfter = .ok vA →
      jsBigIntE badValueAuth.validBefore = .error e →
      verifyPaymentResult exampleEnv exampleConfig badValueAuth "0xs1"
          exampleReqs =
        invalidResult (verificationErrorReason e))) ∧
    jsBigIntE badValueAuth.value = .error (bigIntErr "abc") ∧
    verifyPaymentResult exampleEnv exampleConfig badValueAuth "0xs1"
        exampleReqs =
      invalidResult (verificationErrorReason (bigIntErr "abc")) :=
  ⟨verifyPayment_total exampleEnv exampleConfig badValueAuth "0xs1"
      exampleReqs,
    rfl, by decide⟩

/-! ### Claim C6 -/

/-- verifyPayment never performs the ledger write: its trace only ever
holds the recovery and the two reads. -/
lemma verifyPayment_trace_no_submit (env : Env) (config : Config)
    (a : Authorization) (sg : String) (r : PaymentRequirements) :
    Action.submitA ∉ (verifyPayment env config a sg r).2 := by
  rw [verifyPayment_snd_eq]
  rcases hraw : verifyPaymentRaw env config a sg r with ⟨er, tr⟩
  exact (verifyPaymentRaw_out env config a sg r er tr hraw).2

/-- C6: a settle request that reaches the re-verification step (network
and scheme match) and fails it returns Failed carrying the verification
reason, performs no ledger write (no submitA in its trace), and its
outcome does not depend on the submission capability at all. -/
theorem settle_reverifies_before_submit (env : Env)
    (submit : WriteContractArgs → Except String String) (config : Config)
    (req : FacilitatorRequest)
    (hm1 : req.payload.network = config.networkId)
    (hm2 : req.payload.scheme = config.scheme)
    (hinv : (verifyPaymentResult env config req.payload.payload.authorization
        req.payload.payload.signature req.requirements).isValid = false) :
    handleSettle env submit config req =
      (.failed ((verifyPaymentResult env config
          req.payload.payload.authorization req.payload.payload.signature
          req.requirements).invalidReason.getD ""),
        verifyPaymentTrace env config req.payload.payload.authorization
          req.payload.payload.signature req.requirements) ∧
    Action.submitA ∉ (handleSettle env submit config req).2 ∧
    (∀ submit2, handleSettle env submit config req =
      handleSettle env submit2 config req) := by
  unfold verifyPaymentResult at hinv
  have hmain : ∀ s, handleSettle env s config req =
      (.failed ((verifyPayment env config req.payload.payload.authorization
          req.payload.payload.signature req.requirements).1.invalidReason.getD
          ""),
        (verifyPayment env config req.payload.payload.authorization
          req.payload.payload.signature req.requirements).2) := by
    intro s
    unfold handleSettle
    simp [hm1, hm2, hinv]
  refine ⟨?_, ?_, fun submit2 => (hmain submit).trans (hmain submit2).symm⟩
  · rw [hmain submit]
    rfl
  · rw [hmain submit]
    exact verifyPayment_trace_no_submit env config
      req.payload.payload.authorization req.payload.payload.signature
      req.requirements

/-- Witness for C6: under the ledger that reports the nonce consumed,
re-verification fails and the settle handler answers Failed with the
nonce reason, never invoking the ledger write. -/
theorem settle_reverifies_before_submit_witness :
    (exampleRequest.payload.network = exampleConfig.networkId ∧
      exampleRequest.payload.scheme = exampleConfig.scheme ∧
      (verifyPaymentResult usedNonceEnv exampleConfig
        exampleRequest.payload.payload.authorization
        exampleRequest.payload.payload.signature
        exampleRequest.requirements).isValid = false) ∧
    (handleSettle usedNonceEnv (fun _ => .ok "0xtx") exampleConfig
        exampleRequest =
      (.failed ((verifyPaymentResult usedNonceEnv exampleConfig
          exampleRequest.payload.payload.authorization
          exampleRequest.payload.payload.signature
          exampleRequest.requirements).invalidReason.getD ""),
        verifyPaymentTrace usedNonceEnv exampleConfig
          exampleRequest.payload.payload.authorization
          exampleRequest.payload.payload.signature
          exampleRequest.requirements) ∧
    Action.submitA ∉ (handleSettle usedNonceEnv (fun _ => .ok "0xtx")
        exampleConfig exampleRequest).2 ∧
    (∀ submit2, handleSettle usedNonceEnv (fun _ => .ok "0xtx")
        exampleConfig exampleRequest =
      handleSettle usedNonceEnv submit2 exampleConfig exampleRequest)) ∧
    handleSettle usedNonceEnv (fun _ => .ok "0xtx") exampleConfig
        exampleRequest =
      (.failed nonceUsedReason, [Action.recoverA, Action.nonceReadA]) :=
  ⟨⟨rfl, rfl, by decide⟩,
    settle_reverifies_before_submit usedNonceEnv (fun _ => .ok "0xtx")
      exampleConfig exampleRequest rfl rfl (by decide),
    by decide⟩

/-! ### Claim C8 -/

/-- C8: both handlers evaluate the network check first and the scheme
check second, before any cryptographic or ledger work. A request whose
network differs from the configured one is rejected with the network
mismatch reason (whatever its scheme), a request with matching network
but differing scheme with the scheme mismatch reason; in both cases the
trace is empty: no signature recovery, no ledger read, no write. -/
theorem handlers_reject_mismatch_before_work (env : Env)
    (submit : WriteContractArgs → Except String String) (config : Config)
    (req : FacilitatorRequest) :
    (req.payload.network ≠ config.networkId →
      handleVerify env config req =
        (.invalid (networkMismatchReason req.payload.network
          config.networkId), []) ∧
      handleSettle env submit config req =
        (.failed (networkMismatchReason req.payload.network
          config.networkId), [])) ∧
    (req.payload.network = config.networkId →
      req.payload.scheme ≠ config.scheme →
      handleVerify env config req =
        (.invalid (schemeMismatchReason req.payload.scheme config.scheme),
          []) ∧
      handleSettle env submit config req =
        (.failed (schemeMismatchReason req.payload.scheme config.scheme),
          [])) := by
  constructor
  · intro hn
    constructor
    · unfold handleVerify
      simp [hn]
    · unfold handleSettle
      simp [hn]
  · intro hn hs
    constructor
    · unfold handleVerify
      simp [hn, hs]
    · unfold handleSettle
      simp [hn, hs]

/-- A request for a foreign network and a foreign scheme at once. -/
def bothMismatchRequest : FacilitatorRequest :=
  { exampleRequest with
      payload := { exampleRequest.payload with
        network := "eip155:1", scheme := "permit" } }

/-- Witness for C8 at a request mismatching both network and scheme: the
network reason wins and both handlers answer with an empty trace. -/
theorem handlers_reject_mismatch_before_work_witness :
    ((bothMismatchRequest.payload.network ≠ exampleConfig.networkId →
      handleVerify exampleEnv exampleConfig bothMismatchRequest =
        (.invalid (networkMismatchReason bothMismatchRequest.payload.network
          exampleConfig.networkId), []) ∧
      handleSettle exampleEnv (fun _ => .ok "0xtx") exampleConfig
          bothMismatchRequest =
        (.failed (networkMismatchReason bothMismatchRequest.payload.network
          exampleConfig.networkId), [])) ∧
    (bothMismatchRequest.payload.network = exampleConfig.networkId →
      bothMismatchRequest.payload.scheme ≠ exampleConfig.scheme →
      handleVerify exampleEnv exampleConfig bothMismatchRequest =
        (.invalid (schemeMismatchReason bothMismatchRequest.payload.scheme
          exampleConfig.scheme), []) ∧
      handleSettle exampleEnv (fun _ => .ok "0xtx") exampleConfig
          bothMismatchRequest =
        (.failed (schemeMismatchReason bothMismatchRequest.payload.scheme
          exampleConfig.scheme), []))) ∧
    bothMismatchRequest.payload.network ≠ exampleConfig.networkId ∧
    bothMismatchRequest.payload.scheme ≠ exampleConfig.scheme ∧
    handleVerify exampleEnv exampleConfig bothMismatchRequest =
      (.invalid (networkMismatchReason "eip155:1" "eip155:1990"), []) :=
  ⟨handlers_reject_mismatch_before_work exampleEnv (fun _ => .ok "0xtx")
      exampleConfig bothMismatchRequest,
    by decide, by decide, by decide⟩

/-! ### Claim C3 -/

set_option maxRecDepth 8000 in
/-- C3, counterexample. The claim says parseSignature fails with a
malformed-signature error on every input that is not exactly 65 bytes.
The code never validates the length and never fails: a 2-byte blob yields
r = "0x1234", an empty s and v = NaN; the empty blob yields empty
components; a 66-byte blob is sliced with its last byte silently
ignored. -/
theorem parseSignature_no_length_check_counterexample :
    parseSignature "0x1234" = { v := none, r := "0x1234", s := "0x" } ∧
    parseSignature "0x" = { v := none, r := "0x", s := "0x" } ∧
    parseSignature ("0x" ++ String.mk (List.replicate 132 '0')) =
      { v := some 27
      , r := "0x" ++ String.mk (List.replicate 64 '0')
      , s := "0x" ++ String.mk (List.replicate 64 '0') } := by
  refine ⟨by decide, by decide, by decide⟩

/-- Lower-case hex digit character for a value below 16. -/
def hexDigitChar (n : Nat) : Char :=
  Char.ofNat (if n < 10 then 48 + n else 87 + n)

/-- Two-character lower-case hex encoding of one byte. -/
def byteToHexChars (b : Nat) : List Char :=
  [hexDigitChar (b / 16), hexDigitChar (b % 16)]

/-- Lower-case hex encoding of a byte string. -/
def bytesToHex : List Nat → List Char
  | [] => []
  | b :: rest => byteToHexChars b ++ bytesToHex rest

lemma bytesToHex_append (xs ys : List Nat) :
    bytesToHex (xs ++ ys) = bytesToHex xs ++ bytesToHex ys := by
  induction xs with
  | nil => simp [bytesToHex]
  | cons b rest ih => simp [bytesToHex, ih]

lemma length_bytesToHex (xs : List Nat) :
    (bytesToHex xs).length = 2 * xs.length := by
  induction xs with
  | nil => simp [bytesToHex]
  | cons b rest ih =>
    simp [bytesToHex, byteToHexChars, ih]
    omega

lemma bytesToHex_take (xs : List Nat) (k : Nat) :
    (bytesToHex xs).take (2 * k) = bytesToHex (xs.take k) := by
  induction xs generalizing k with
  | nil => simp [bytesToHex]
  | cons b rest ih =>
    cases k with
    | zero => simp [bytesToHex]
    | succ k =>
      have h2 : 2 * (k + 1) = 2 * k + 1 + 1 := by omega
      simp [bytesToHex, byteToHexChars, h2, List.take_succ_cons, ih]

lemma bytesToHex_drop (xs : List Nat) (k : Nat) :
    (bytesToHex xs).drop (2 * k) = bytesToHex (xs.drop k) := by
  induction xs generalizing k with
  | nil => simp [bytesToHex]
  | cons b rest ih =>
    cases k with
    | zero => simp [bytesToHex]
    | succ k =>
      have h2 : 2 * (k + 1) = 2 * k + 1 + 1 := by omega
      simp [bytesToHex, byteToHexChars, h2, List.drop_succ_cons, ih]

lemma hexDigitVal_hexDigitChar {n : Nat} (h : n < 16) :
    hexDigitVal (hexDigitChar n) = some n := by
  have hall : ∀ i : Fin 16, hexDigitVal (hexDigitChar i.1) = some i.1 := by
    decide
  exact hall ⟨n, h⟩

lemma hexDigitChar_not_ws {n : Nat} (h : n < 16) :
    isWsChar (hexDigitChar n) = false := by
  have hall : ∀ i : Fin 16, isWsChar (hexDigitChar i.1) = false := by decide
  exact hall ⟨n, h⟩

lemma hexDigitChar_not_sign {n : Nat} (h : n < 16) :
    (hexDigitChar n).toNat ≠ 43 ∧ (hexDigitChar n).toNat ≠ 45 := by
  have hall : ∀ i : Fin 16,
      (hexDigitChar i.1).toNat ≠ 43 ∧ (hexDigitChar i.1).toNat ≠ 45 := by
    decide
  exact hall ⟨n, h⟩

lemma hexDigitChar_not_xX {n : Nat} (h : n < 16) :
    (hexDigitChar n).toNat ≠ 120 ∧ (hexDigitChar n).toNat ≠ 88 := by
  have hall : ∀ i : Fin 16,
      (hexDigitChar i.1).toNat ≠ 120 ∧ (hexDigitChar i.1).toNat ≠ 88 := by
    decide
  exact hall ⟨n, h⟩

/-- parseInt base 16 of the two-character encoding of a byte recovers the
byte. -/
lemma jsParseIntHex_byte {b : Nat} (h : b < 256) :
    jsParseIntHex (String.mk (byteToHexChars b)) = some (b : Int) := by
  have hd : b / 16 < 16 := by omega
  have hm : b % 16 < 16 := by omega
  unfold jsParseIntHex byteToHexChars
  simp only [trimLeftWs, hexDigitChar_not_ws hd, Bool.false_eq_true, if_false,
    readSign, (hexDigitChar_not_sign hd).1, (hexDigitChar_not_sign hd).2,
    startsHex0x, (hexDigitChar_not_xX hm).1, (hexDigitChar_not_xX hm).2,
    hexDigitVal_hexDigitChar hd, hexDigitVal_hexDigitChar hm,
    leadHexLoop]
  simp [hexDigitVal_hexDigitChar hd, hexDigitVal_hexDigitChar hm, leadHexLoop]
  omega

/-- C3, as amended. On a blob of exactly 65 bytes (130 hex characters
after the 0x prefix), parseSignature returns r = bytes 0–31, s = bytes
32–63, and v = byte 64 normalized by adding 27 when below 27 (so trailing
byte 0 or 1 becomes 27 / 28, and 27 / 28 stay as they are). No
malformed-signature error exists for other lengths: the function slices
whatever it is given (see the counterexample). -/
theorem parseSignature_65_byte_slices (pre : List Nat) (b64 : Nat)
    (hlen : pre.length = 64) (hb : b64 < 256) :
    parseSignature (String.mk ('0' :: 'x' :: bytesToHex (pre ++ [b64]))) =
      { r := "0x" ++ String.mk (bytesToHex (pre.take 32))
      , s := "0x" ++ String.mk (bytesToHex (pre.drop 32))
      , v := if (b64 : Int) < 27 then some ((b64 : Int) + 27)
             else some (b64 : Int) } := by
  have hL : (bytesToHex (pre ++ [b64])).length = 130 := by
    rw [length_bytesToHex]
    simp [hlen]
  have htake32 : (pre ++ [b64]).take 32 = pre.take 32 := by
    rw [List.take_append_eq_append_take]
    simp [hlen]
  have hdrop32 : (pre ++ [b64]).drop 32 = pre.drop 32 ++ [b64] := by
    rw [List.drop_append_eq_append_drop]
    simp [hlen]
  have hdrop64 : (pre ++ [b64]).drop 64 = [b64] := by
    rw [List.drop_append_eq_append_drop]
    simp [hlen]
  have hpredrop_len : (pre.drop 32).length = 32 := by simp [hlen]
  have htake_inner : (pre.drop 32 ++ [b64]).take 32 = pre.drop 32 := by
    rw [List.take_append_eq_append_take]
    simp [hpredrop_len, List.take_of_length_le (le_of_eq hpredrop_len)]
  have hr : (bytesToHex (pre ++ [b64])).take 64 = bytesToHex (pre.take 32)
      := by
    rw [show (64 : Nat) = 2 * 32 by norm_num, bytesToHex_take, htake32]
  have hs : ((bytesToHex (pre ++ [b64])).drop 64).take 64
      = bytesToHex (pre.drop 32) := by
    rw [show (64 : Nat) = 2 * 32 by norm_num, bytesToHex_drop, hdrop32,
      bytesToHex_take, htake_inner]
  have hv2 : ((bytesToHex (pre ++ [b64])).drop 128).take 2
      = byteToHexChars b64 := by
    rw [show (128 : Nat) = 2 * 64 by norm_num, bytesToHex_drop, hdrop64]
    simp [bytesToHex, byteToHexChars]
  have htake130 : List.take 130 (bytesToHex (pre ++ [b64]))
      = bytesToHex (pre ++ [b64]) := by
    rw [← hL]
    exact List.take_length _
  unfold parseSignature jsSlice
  simp [List.length_cons, hL, htake130, hr, hs, hv2, jsParseIntHex_byte hb]

/-- Witness for the amended C3 at the 65-byte blob of 64 zero bytes
followed by the byte 1: v normalizes to 28. -/
theorem parseSignature_65_byte_slices_witness :
    (List.replicate 64 (0 : Nat)).length = 64 ∧ (1 : Nat) < 256 ∧
    parseSignature (String.mk
        ('0' :: 'x' :: bytesToHex (List.replicate 64 (0 : Nat) ++ [1]))) =
      { r := "0x" ++ String.mk (bytesToHex
          ((List.replicate 64 (0 : Nat)).take 32))
      , s := "0x" ++ String.mk (bytesToHex
          ((List.replicate 64 (0 : Nat)).drop 32))
      , v := if (1 : Int) < 27 then some ((1 : Int) + 27)
             else some (1 : Int) } :=
  ⟨by decide, by decide,
    parseSignature_65_byte_slices (List.replicate 64 0) 1 (by decide)
      (by decide)⟩

/-! ### Claim C2 -/

/-- A writeContract argument record before any gas policy is applied. -/
def exampleWriteArgs : WriteContractArgs :=
  { address := "0xCc03", functionName := "transferWithAuthorization"
  , callArgs := [], gas := none }

/-- A probe submission capability that reports whether the executor gave
it a gas parameter. -/
def gasProbe : WriteContractArgs → Except String String := fun args =>
  match args.gas with
  | none => .ok "no-gas"
  | some _ => .ok "has-gas"

/-- C2, code evaluation. The claim (and the repository's own write-up)
demand that every settlement submission carry the fixed configured
ceiling FIXED_GAS_LIMIT and perform no dynamic estimation. Only the
index.ts wrapper does so. The settle handler's actual executor,
executeTransferWithAuthorization in qieService.ts, submits with no gas
parameter at all (leaving viem to call the broken eth_estimateGas), and
the src/client.ts wrapper extendedWriteContract explicitly requests an
estimate and submits with it — at the documented unreliable estimate
24,000 the transaction is sent with 24,000 gas, not FIXED_GAS_LIMIT. -/
theorem settlement_gas_policy_divergence :
    (gasInjectedWriteContractArgs exampleWriteArgs).gas =
      some FIXED_GAS_LIMIT ∧
    extendedWriteContract (.ok 24000) exampleWriteArgs =
      .ok { exampleWriteArgs with gas := some 24000 } ∧
    (24000 : Int) ≠ FIXED_GAS_LIMIT ∧
    (transferWithAuthorizationCall exampleConfig "0xAa01" "0xBb02" 1000000 0
      9999999999 "0xn1" (some 28) "0xr" "0xs").gas = none ∧
    executeTransferWithAuthorization gasProbe exampleEnv exampleConfig
      "0xAa01" "0xBb02" 1000000 0 9999999999 "0xn1" (some 28) "0xr" "0xs" =
      .ok "no-gas" :=
  ⟨rfl, rfl, by decide, rfl, rfl⟩

end QieX402
